import Mathlib

/-!
Shallow embedding of `src/main.py` of dlebech/stable-diffusion-2-streamlit.

The program is a Streamlit UI over an external image-generation pipeline.
Streamlit runs the script top to bottom on every interaction; widget values
and external effects are modelled by an environment `Env` (the value each
widget currently holds, keyed the way the source keys it, plus the external
`generate` oracle), and `st.session_state` is modelled as an explicit partial
map from strings to images that threads through the script in source order.
Calls to the external `generate` function and renders (`st.image`,
`st.markdown`) are recorded in an event trace.

Images are value objects: pixel content is abstracted as a `data` tag plus
explicit `width`/`height`, which is all the source ever inspects
(`image.width`, `image.height`, truthiness). `PIL.Image.resize((w, h))`
returns an image of exactly those dimensions; `PIL.Image.copy` returns a new
image with identical content, which at value level is the identity.
-/

/-- A PIL image, abstracted to its dimensions and a content tag. -/
structure Image where
  width : Nat
  height : Nat
  data : Nat
deriving DecidableEq

/-- Python `PIL.Image.resize((w, h))` (src/main.py line 94): the result has exactly
the requested dimensions; resampled pixel content keeps the content tag. -/
def Image.resize (img : Image) (w h : Nat) : Image :=
  { img with width := w, height := h }

/-- Python `PIL.Image.copy` returns a fresh image with identical content: at value
level it is the identity. -/
def Image.copy (img : Image) : Image := img

/-- One RGBA pixel of the drawable canvas `image_data` array (r, g, b, a). -/
abbrev RGBA := Nat × Nat × Nat × Nat

/-- The boolean mask `image_data[:, :, -1] > 0` built in `inpainting`
(src/main.py line 127), then turned into an image by `Image.fromarray`. -/
structure Mask where
  pixels : List (List Bool)
deriving DecidableEq

/-- The keyword arguments each call site of `prompt_and_generate_button`
passes through `**kwargs` to `generate` (src/main.py lines 139, 151, 165,
173): `width=`/`height=` for txt2img, `image_input=`/`mask_input=` for
inpainting, `image_input=` for img2img, and `image_input=` (possibly `None`)
for upscale. -/
inductive Kwargs
  | txt2imgK (width height : Nat)
  | inpaintK (image_input : Image) (mask_input : Mask)
  | img2imgK (image_input : Image)
  | upscaleK (image_input : Option Image)
deriving DecidableEq

/-- The full argument record of one call to the external `generate` function
(src/main.py lines 54-61). -/
structure GenCall where
  prompt : String
  pipeline_name : String
  negative_prompt : String
  steps : Nat
  guidance_scale : ℚ
  kwargs : Kwargs
deriving DecidableEq

/-- Observable effects of one script run: calls to the external `generate`
function, images rendered with `st.image`, masks rendered with `st.image`,
and text rendered with `st.markdown`. -/
inductive Event
  | genCall (c : GenCall)
  | renderImage (img : Image)
  | renderMask (m : Mask)
  | renderMarkdown (s : String)
deriving DecidableEq

/-- The widget environment of one script run: what each widget (looked up by
its key) currently holds, plus the external `generate` oracle. Streamlit
guarantees each widget returns a value of its declared kind; sliders are
modelled by a user choice index that the slider maps onto its value grid. -/
structure Env where
  textArea : String → String
  sliderChoice : String → Nat
  button : String → Bool
  fileUpload : String → Option Image
  canvasData : String → Option (List (List RGBA))
  generate : GenCall → Image

/-- Python `st.session_state`, restricted to the image entries this program reads
and writes: a partial map from string keys to images. -/
def SessionState := String → Option Image

/-- The empty session state of a fresh session. -/
def SessionState.empty : SessionState := fun _ => none

def DEFAULT_PROMPT : String := "border collie puppy"

def DEFAULT_WIDTH : Nat := 512

def DEFAULT_HEIGHT : Nat := 512

def OUTPUT_IMAGE_KEY : String := "output_img"

def LOADED_IMAGE_KEY : String := "loaded_image"

/-- Python `get_image` (src/main.py lines 15-18): the stored image if `key` is in
the session state, else `None`. -/
def get_image (s : SessionState) (key : String) : Option Image :=
  s key

/-- Python `set_image` (src/main.py lines 21-22): `st.session_state[key] = img`. -/
def set_image (s : SessionState) (key : String) (img : Image) : SessionState :=
  fun k => if k = key then some img else s k

/-- Python `st.slider` with integer `min_value`/`max_value`/`step` (src/main.py
lines 36-42 and 69-85): Streamlit lets the user pick any grid point
`min_value + step * i` with `min_value + step * i ≤ max_value`, and returns
that value. The environment's choice index is mapped onto this grid. -/
def sliderNat (env : Env) (key : String) (minv maxv step : Nat) : Nat :=
  minv + step * (env.sliderChoice key % ((maxv - minv) / step + 1))

/-- Python `st.slider` with float `min_value`/`max_value`/`step` (src/main.py lines
43-50): the user picks a grid point `min_value + step * i` within the range;
the slider values here (multiples of 0.5) are exact, so they are modelled as
rationals. -/
def sliderRat (env : Env) (key : String) (minv maxv step : ℚ) : ℚ :=
  minv + step * (env.sliderChoice key % (((maxv - minv) / step).floor.toNat + 1) : Nat)

/-- The argument record `prompt_and_generate_button` assembles for the
`generate` call (src/main.py lines 54-61): the four widget values read at
lines 26-50 under the tab's key prefix, the tab's pipeline name, and the
tab-specific `**kwargs`, all passed through unchanged. -/
def mkCall (env : Env) (pfx pipeline_name : String) (kwargs : Kwargs) : GenCall :=
  { prompt := env.textArea (pfx ++ "-prompt")
    pipeline_name := pipeline_name
    negative_prompt := env.textArea (pfx ++ "-negative-prompt")
    steps := sliderNat env (pfx ++ "-steps") 1 200 1
    guidance_scale := sliderRat env (pfx ++ "-guidance") 0 20 (1 / 2)
    kwargs := kwargs }

/-- Python `prompt_and_generate_button` (src/main.py lines 25-63): reads the prompt,
negative prompt, steps and guidance widgets, and when the "Generate image"
button is clicked calls `generate` once with exactly those values plus the
caller's `**kwargs`, stores a copy of the result under `OUTPUT_IMAGE_KEY`,
and renders the result with `st.image`. -/
def prompt_and_generate_button (env : Env) (pfx : String) (pipeline_name : String)
    (kwargs : Kwargs) (s : SessionState) : SessionState × List Event :=
  if env.button (pfx ++ "-btn") then
    let c := mkCall env pfx pipeline_name kwargs
    let image := env.generate c
    (set_image s OUTPUT_IMAGE_KEY image.copy, [Event.genCall c, Event.renderImage image])
  else
    (s, [])

/-- Python `width_and_height_sliders` (src/main.py lines 66-86): two sliders with
range 64 to 1024 and step 64, both defaulting to 512. -/
def width_and_height_sliders (env : Env) (pfx : String) : Nat × Nat :=
  (sliderNat env (pfx ++ "-width") 64 1024 64,
   sliderNat env (pfx ++ "-height") 64 1024 64)

/-- Python `image_uploader` (src/main.py lines 89-97): if a file is uploaded, open
it and resize it to `(width, height)`; otherwise fall back to the session's
loaded image (which may be absent). -/
def image_uploader (env : Env) (pfx : String) (width height : Nat)
    (s : SessionState) : Option Image :=
  match env.fileUpload (pfx ++ "-uploader") with
  | some img => some (img.resize width height)
  | none => get_image s LOADED_IMAGE_KEY

/-- Python `mask = image_data[:, :, -1] > 0` (src/main.py line 127): per pixel, is
the alpha channel positive. -/
def alphaMask (data : List (List RGBA)) : List (List Bool) :=
  data.map (fun row => row.map (fun p => decide (0 < p.2.2.2)))

/-- Python `mask.sum()` on a boolean numpy array (src/main.py line 128): the number
of `True` entries. -/
def maskSum (m : List (List Bool)) : Nat :=
  (m.map (fun row => row.countP id)).sum

/-- Python `inpainting` (src/main.py lines 100-133): get the input image from the
uploader (brush size and canvas setup only configure the drawable canvas,
whose resulting `image_data` the environment supplies under the canvas key
"inpainting"); without an image, or without canvas data, or with a mask that
has no positive-alpha pixel, return `(None, None)`; otherwise render the
mask and return the image and mask. -/
def inpainting (env : Env) (s : SessionState) :
    Option (Image × Mask) × List Event :=
  match image_uploader env "inpainting" DEFAULT_WIDTH DEFAULT_HEIGHT s with
  | none => (none, [])
  | some image =>
    match env.canvasData "inpainting" with
    | none => (none, [])
    | some data =>
      let mask := alphaMask data
      if 0 < maskSum mask then
        (some (image, ⟨mask⟩), [Event.renderMask ⟨mask⟩])
      else
        (none, [])

/-- Python `txt2img_tab` (src/main.py lines 136-139). -/
def txt2img_tab (env : Env) (s : SessionState) : SessionState × List Event :=
  let wh := width_and_height_sliders env "txt2img"
  prompt_and_generate_button env "txt2img" "txt2img"
    (Kwargs.txt2imgK wh.1 wh.2) s

/-- Python `inpainting_tab` (src/main.py lines 142-152): the generate flow runs only
when `inpainting` returned both an image and a mask. -/
def inpainting_tab (env : Env) (s : SessionState) : SessionState × List Event :=
  let r := inpainting env s
  match r.1 with
  | some im =>
    let r' := prompt_and_generate_button env "inpaint" "inpaint"
      (Kwargs.inpaintK im.1 im.2) s
    (r'.1, r.2 ++ r'.2)
  | none => (s, r.2)

/-- Python `img2img_tab` (src/main.py lines 155-165): the uploaded (or loaded) image
is rendered and the generate flow runs only when an image is present. -/
def img2img_tab (env : Env) (s : SessionState) : SessionState × List Event :=
  match image_uploader env "img2img" DEFAULT_WIDTH DEFAULT_HEIGHT s with
  | some image =>
    let r := prompt_and_generate_button env "img2img" "img2img"
      (Kwargs.img2imgK image) s
    (r.1, Event.renderImage image :: r.2)
  | none => (s, [])

/-- Python `upscale_tab` (src/main.py lines 168-173): the image (uploaded or loaded,
resized to 256 by 256 when uploaded) is rendered when present, and the
generate flow runs unconditionally, with `image_input` possibly `None`. -/
def upscale_tab (env : Env) (s : SessionState) : SessionState × List Event :=
  let image := image_uploader env "upscale" 256 256 s
  let renderEv := match image with
    | some i => [Event.renderImage i]
    | none => []
  let r := prompt_and_generate_button env "upscale" "upscale"
    (Kwargs.upscaleK image) s
  (r.1, renderEv ++ r.2)

/-- The tab labels passed to `st.tabs` (src/main.py lines 188-190). -/
def mainTabLabels : List String :=
  ["Text to Image (txt2img)", "Inpainting", "Image to image (img2img)", "Upscale"]

/-- The sidebar block of `main` (src/main.py lines 203-212): if an output
image is stored, render it (and on button click store a copy of it as the
loaded image); otherwise render the text "No output generated yet". -/
def sidebar (env : Env) (s : SessionState) : SessionState × List Event :=
  match get_image s OUTPUT_IMAGE_KEY with
  | some output_image =>
    if env.button "Use this image for inpainting and img2img" then
      (set_image s LOADED_IMAGE_KEY output_image.copy, [Event.renderImage output_image])
    else
      (s, [Event.renderImage output_image])
  | none => (s, [Event.renderMarkdown "No output generated yet"])

namespace SD2

/-- Python `main` (src/main.py lines 184-212): the four tabs run in order, threading
the session state, then the sidebar runs on the resulting state. -/
def main (env : Env) (s : SessionState) : SessionState × List Event :=
  let r1 := txt2img_tab env s
  let r2 := inpainting_tab env r1.1
  let r3 := img2img_tab env r2.1
  let r4 := upscale_tab env r3.1
  let r5 := sidebar env r4.1
  (r5.1, r1.2 ++ r2.2 ++ r3.2 ++ r4.2 ++ r5.2)

end SD2

/-- The calls to the external `generate` function recorded in a trace. -/
def genCalls (evs : List Event) : List GenCall :=
  evs.filterMap (fun e => match e with
    | Event.genCall c => some c
    | _ => none)

/-- The PIL image-transforming operations this repository can apply to an
uploaded image. `src/main.py` invokes exactly one such operation, `resize`
at line 94 inside `image_uploader`; no `crop` call appears anywhere in the
file. -/
inductive PILOp
  | resize
  | crop
deriving DecidableEq

/-- The PIL operations applied to an uploaded image on its way through
`image_uploader` (src/main.py lines 89-97): only `resize` (line 94). -/
def uploadedImageOps : List PILOp := [PILOp.resize]

/-- Whether the tab-specific keyword arguments satisfy the ranges of C8:
txt2img width and height are multiples of 64 between 64 and 1024. -/
def kwargsOk : Kwargs → Bool
  | Kwargs.txt2imgK w h =>
    decide (64 ≤ w) && decide (w ≤ 1024) && decide (w % 64 = 0) &&
    decide (64 ≤ h) && decide (h ≤ 1024) && decide (h % 64 = 0)
  | _ => true

/-- Whether one `generate` call satisfies the parameter ranges of C8: steps
between 1 and 200, guidance scale between 0 and 20, and `kwargsOk`. -/
def callParamsOk (c : GenCall) : Bool :=
  decide (1 ≤ c.steps) && decide (c.steps ≤ 200) &&
  decide ((0 : ℚ) ≤ c.guidance_scale) && decide (c.guidance_scale ≤ 20) &&
  kwargsOk c.kwargs

/-- A concrete uploaded image used to instantiate the theorems. -/
def imgA : Image := ⟨640, 480, 7⟩

/-- A concrete generated image used to instantiate the theorems. -/
def outImg : Image := ⟨768, 768, 11⟩

/-- A concrete environment: every button clicked, files uploaded everywhere
except on the upscale tab, and a canvas drawing with one positive-alpha
pixel. -/
def envA : Env :=
  { textArea := fun _ => "a prompt"
    sliderChoice := fun _ => 3
    button := fun _ => true
    fileUpload := fun k => if k = "upscale-uploader" then none else some imgA
    canvasData := fun _ => some [[(255, 255, 255, 255)], [(0, 0, 0, 0)]]
    generate := fun _ => outImg }

/-- A concrete environment: every button clicked, no file uploaded anywhere,
and a canvas drawing whose pixels all have zero alpha. -/
def envB : Env :=
  { textArea := fun _ => ""
    sliderChoice := fun _ => 0
    button := fun _ => true
    fileUpload := fun _ => none
    canvasData := fun _ => some [[(10, 10, 10, 0)]]
    generate := fun _ => outImg }

/-- A concrete environment: a file uploaded on the inpainting tab but no
canvas data yet. -/
def envC : Env :=
  { textArea := fun _ => ""
    sliderChoice := fun _ => 0
    button := fun _ => false
    fileUpload := fun k => if k = "inpainting-uploader" then some imgA else none
    canvasData := fun _ => none
    generate := fun _ => outImg }

/-- A session state holding only an output image. -/
def sOut : SessionState := set_image SessionState.empty OUTPUT_IMAGE_KEY outImg

/-- A session state holding only a loaded image. -/
def sLoaded : SessionState := set_image SessionState.empty LOADED_IMAGE_KEY imgA

/-- C2: session-scoped storage has round-trip semantics: for every state,
string key and image, `get_image k` right after `set_image k v` returns
`v`. -/
theorem set_then_get_roundtrip (s : SessionState) (k : String) (v : Image) :
    get_image (set_image s k v) k = some v := by
  simp [get_image, set_image]

/-- C7: storing an image under one key leaves every other key unchanged,
including its absence. -/
theorem set_image_frame (s : SessionState) (k k' : String) (v : Image)
    (h : k' ≠ k) : get_image (set_image s k v) k' = get_image s k' := by
  simp [get_image, set_image, h]

/-- Witness for C7 at concrete distinct keys on the empty state. -/
theorem set_image_frame_witness :
    get_image (set_image SessionState.empty "a" ⟨1, 1, 0⟩) "b" =
      get_image SessionState.empty "b" :=
  set_image_frame SessionState.empty "a" "b" ⟨1, 1, 0⟩ (by decide)

/-! ### Trace characterization lemmas -/

theorem genCalls_append (a b : List Event) :
    genCalls (a ++ b) = genCalls a ++ genCalls b := by
  simp [genCalls]

theorem genCalls_papb (env : Env) (pfx pn : String) (kw : Kwargs) (s : SessionState) :
    genCalls (prompt_and_generate_button env pfx pn kw s).2 =
      if env.button (pfx ++ "-btn") then [mkCall env pfx pn kw] else [] := by
  unfold prompt_and_generate_button
  cases hb : env.button (pfx ++ "-btn") <;> simp [hb, genCalls]

theorem genCalls_txt2img_tab (env : Env) (s : SessionState) :
    genCalls (txt2img_tab env s).2 =
      if env.button "txt2img-btn" then
        [mkCall env "txt2img" "txt2img"
          (Kwargs.txt2imgK (sliderNat env "txt2img-width" 64 1024 64)
            (sliderNat env "txt2img-height" 64 1024 64))]
      else [] := by
  unfold txt2img_tab width_and_height_sliders
  rw [genCalls_papb]
  rfl

theorem genCalls_inpainting (env : Env) (s : SessionState) :
    genCalls (inpainting env s).2 = [] := by
  unfold inpainting
  cases hupload : image_uploader env "inpainting" DEFAULT_WIDTH DEFAULT_HEIGHT s with
  | none => simp [genCalls]
  | some image =>
    cases hcanvas : env.canvasData "inpainting" with
    | none => simp [genCalls]
    | some data =>
      by_cases h : 0 < maskSum (alphaMask data) <;> simp [h, genCalls]

theorem genCalls_inpainting_tab (env : Env) (s : SessionState) :
    genCalls (inpainting_tab env s).2 =
      match (inpainting env s).1 with
      | some im =>
        if env.button "inpaint-btn" then
          [mkCall env "inpaint" "inpaint" (Kwargs.inpaintK im.1 im.2)]
        else []
      | none => [] := by
  unfold inpainting_tab
  cases h : (inpainting env s).1 with
  | none => simpa [h] using genCalls_inpainting env s
  | some im =>
    simp only [h]
    rw [genCalls_append, genCalls_inpainting, genCalls_papb]
    simp

theorem genCalls_img2img_tab (env : Env) (s : SessionState) :
    genCalls (img2img_tab env s).2 =
      match image_uploader env "img2img" DEFAULT_WIDTH DEFAULT_HEIGHT s with
      | some image =>
        if env.button "img2img-btn" then
          [mkCall env "img2img" "img2img" (Kwargs.img2imgK image)]
        else []
      | none => [] := by
  unfold img2img_tab
  cases h : image_uploader env "img2img" DEFAULT_WIDTH DEFAULT_HEIGHT s with
  | none => simp [genCalls]
  | some image =>
    simp only [h]
    rw [show genCalls (Event.renderImage image ::
        (prompt_and_generate_button env "img2img" "img2img" (Kwargs.img2imgK image) s).2) =
        genCalls (prompt_and_generate_button env "img2img" "img2img" (Kwargs.img2imgK image) s).2
      from rfl]
    rw [genCalls_papb]
    simp

theorem genCalls_upscale_tab (env : Env) (s : SessionState) :
    genCalls (upscale_tab env s).2 =
      if env.button "upscale-btn" then
        [mkCall env "upscale" "upscale"
          (Kwargs.upscaleK (image_uploader env "upscale" 256 256 s))]
      else [] := by
  unfold upscale_tab
  cases h : image_uploader env "upscale" 256 256 s <;>
    · simp only [h]
      rw [genCalls_append, genCalls_papb]
      simp [genCalls]

theorem genCalls_sidebar (env : Env) (s : SessionState) :
    genCalls (sidebar env s).2 = [] := by
  unfold sidebar
  cases h : get_image s OUTPUT_IMAGE_KEY with
  | none => simp [genCalls]
  | some output_image =>
    cases hb : env.button "Use this image for inpainting and img2img" <;>
      simp [hb, genCalls]

theorem main_trace_decomposition (env : Env) (s : SessionState) :
    (SD2.main env s).2 =
      (txt2img_tab env s).2 ++
      ((inpainting_tab env (txt2img_tab env s).1).2 ++
       ((img2img_tab env (inpainting_tab env (txt2img_tab env s).1).1).2 ++
        ((upscale_tab env
            (img2img_tab env (inpainting_tab env (txt2img_tab env s).1).1).1).2 ++
         (sidebar env
            (upscale_tab env
              (img2img_tab env (inpainting_tab env (txt2img_tab env s).1).1).1).1).2))) := by
  unfold SD2.main
  simp

/-! ### Slider range lemmas -/

theorem sliderNat_steps_mem (env : Env) (key : String) :
    1 ≤ sliderNat env key 1 200 1 ∧ sliderNat env key 1 200 1 ≤ 200 := by
  unfold sliderNat
  omega

theorem sliderNat_wh_mem (env : Env) (key : String) :
    64 ≤ sliderNat env key 64 1024 64 ∧ sliderNat env key 64 1024 64 ≤ 1024 ∧
      sliderNat env key 64 1024 64 % 64 = 0 := by
  unfold sliderNat
  omega

theorem sliderRat_guidance_mem (env : Env) (key : String) :
    0 ≤ sliderRat env key 0 20 (1 / 2) ∧ sliderRat env key 0 20 (1 / 2) ≤ 20 := by
  unfold sliderRat
  have hfloor : ((((20 : ℚ) - 0) / (1 / 2)).floor.toNat + 1) = 41 := by
    have h40 : (((20 : ℚ) - 0) / (1 / 2)) = 40 := by norm_num
    rw [h40, Rat.floor_def']
    norm_num
    rfl
  rw [hfloor]
  have hk : env.sliderChoice key % 41 ≤ 40 :=
    Nat.le_of_lt_succ (Nat.mod_lt _ (by norm_num))
  constructor
  · positivity
  · have hc : ((env.sliderChoice key % 41 : Nat) : ℚ) ≤ 40 := by exact_mod_cast hk
    linarith

theorem kwargsOk_mkCall_ok (env : Env) (pfx pn : String) (kw : Kwargs)
    (hkw : kwargsOk kw = true) :
    callParamsOk (mkCall env pfx pn kw) = true := by
  obtain ⟨h1, h2⟩ := sliderNat_steps_mem env (pfx ++ "-steps")
  obtain ⟨h3, h4⟩ := sliderRat_guidance_mem env (pfx ++ "-guidance")
  simp only [one_div] at h3 h4
  simp [callParamsOk, mkCall, h1, h2, h3, h4, hkw]

/-- C1: every image generation goes through exactly one invocation of the
external `generate` function: `prompt_and_generate_button` emits exactly one
`generate` call when its "Generate image" button is clicked and none
otherwise, and a full script run emits exactly one `generate` call per tab
whose button click reaches the generate flow (the txt2img and upscale
buttons unconditionally; the inpainting and img2img buttons only when their
input image, and for inpainting the mask, are present) — no other code path
emits a `generate` call. -/
theorem generate_called_once_per_click (env : Env) (pfx pn : String) (kw : Kwargs)
    (s : SessionState) :
    ((genCalls (prompt_and_generate_button env pfx pn kw s).2).length
      = if env.button (pfx ++ "-btn") then 1 else 0)
    ∧ ((genCalls (SD2.main env s).2).length
      = (if env.button "txt2img-btn" then 1 else 0)
        + (if (inpainting env (txt2img_tab env s).1).1.isSome
              ∧ env.button "inpaint-btn" then 1 else 0)
        + (if (image_uploader env "img2img" DEFAULT_WIDTH DEFAULT_HEIGHT
                (inpainting_tab env (txt2img_tab env s).1).1).isSome
              ∧ env.button "img2img-btn" then 1 else 0)
        + (if env.button "upscale-btn" then 1 else 0)) := by
  constructor
  · rw [genCalls_papb]
    split <;> simp
  · rw [main_trace_decomposition, genCalls_append, genCalls_append, genCalls_append,
        genCalls_append, genCalls_txt2img_tab, genCalls_inpainting_tab,
        genCalls_img2img_tab, genCalls_upscale_tab, genCalls_sidebar]
    cases h1 : (inpainting env (txt2img_tab env s).1).1 <;>
    cases h2 : image_uploader env "img2img" DEFAULT_WIDTH DEFAULT_HEIGHT
        (inpainting_tab env (txt2img_tab env s).1).1 <;>
    cases hb1 : env.button "txt2img-btn" <;>
    cases hb2 : env.button "inpaint-btn" <;>
    cases hb3 : env.button "img2img-btn" <;>
    cases hb4 : env.button "upscale-btn" <;>
    simp [h1, h2, hb1, hb2, hb3, hb4]

theorem callParamsOk_inpaint (env : Env) (pfx pn : String) (i : Image) (m : Mask) :
    callParamsOk (mkCall env pfx pn (Kwargs.inpaintK i m)) = true :=
  kwargsOk_mkCall_ok env pfx pn _ rfl

theorem callParamsOk_img2img (env : Env) (pfx pn : String) (i : Image) :
    callParamsOk (mkCall env pfx pn (Kwargs.img2imgK i)) = true :=
  kwargsOk_mkCall_ok env pfx pn _ rfl

theorem callParamsOk_upscale (env : Env) (pfx pn : String) (i : Option Image) :
    callParamsOk (mkCall env pfx pn (Kwargs.upscaleK i)) = true :=
  kwargsOk_mkCall_ok env pfx pn _ rfl

/-- C8: every `generate` call a script run emits has steps between 1 and 200,
guidance scale between 0 and 20, and, for txt2img, width and height that are
multiples of 64 between 64 and 1024 (`callParamsOk`). -/
theorem parameter_ranges (env : Env) (s : SessionState) :
    (genCalls (SD2.main env s).2).all callParamsOk = true := by
  rw [main_trace_decomposition, genCalls_append, genCalls_append, genCalls_append,
      genCalls_append, genCalls_txt2img_tab, genCalls_inpainting_tab,
      genCalls_img2img_tab, genCalls_upscale_tab, genCalls_sidebar]
  obtain ⟨a1, a2, a3⟩ := sliderNat_wh_mem env "txt2img-width"
  obtain ⟨b1, b2, b3⟩ := sliderNat_wh_mem env "txt2img-height"
  have hkw : kwargsOk (Kwargs.txt2imgK (sliderNat env "txt2img-width" 64 1024 64)
      (sliderNat env "txt2img-height" 64 1024 64)) = true := by
    simp [kwargsOk, a1, a2, a3, b1, b2, b3]
  cases h1 : (inpainting env (txt2img_tab env s).1).1 <;>
  cases h2 : image_uploader env "img2img" DEFAULT_WIDTH DEFAULT_HEIGHT
      (inpainting_tab env (txt2img_tab env s).1).1 <;>
  cases hb1 : env.button "txt2img-btn" <;>
  cases hb2 : env.button "inpaint-btn" <;>
  cases hb3 : env.button "img2img-btn" <;>
  cases hb4 : env.button "upscale-btn" <;>
  simp [h1, h2, hb1, hb2, hb3, hb4, kwargsOk_mkCall_ok _ _ _ _ hkw,
    callParamsOk_inpaint, callParamsOk_img2img, callParamsOk_upscale]

/-- C3: when a tab's Generate image button is clicked, the `generate` call
receives exactly the widget values collected under that tab's key prefix
(prompt, negative prompt, steps, guidance scale) and the tab-specific
keyword arguments (width/height for txt2img, image for img2img and upscale,
image and mask for inpainting), unchanged. -/
theorem generate_receives_widget_values (env : Env) (pfx pn : String) (kw : Kwargs)
    (s : SessionState) (img : Image) (m : Mask) :
    (env.button (pfx ++ "-btn") = true →
      genCalls (prompt_and_generate_button env pfx pn kw s).2 =
        [{ prompt := env.textArea (pfx ++ "-prompt")
           pipeline_name := pn
           negative_prompt := env.textArea (pfx ++ "-negative-prompt")
           steps := sliderNat env (pfx ++ "-steps") 1 200 1
           guidance_scale := sliderRat env (pfx ++ "-guidance") 0 20 (1 / 2)
           kwargs := kw }])
    ∧ (env.button "txt2img-btn" = true →
        genCalls (txt2img_tab env s).2 =
          [mkCall env "txt2img" "txt2img"
            (Kwargs.txt2imgK (sliderNat env "txt2img-width" 64 1024 64)
              (sliderNat env "txt2img-height" 64 1024 64))])
    ∧ ((inpainting env s).1 = some (img, m) → env.button "inpaint-btn" = true →
        genCalls (inpainting_tab env s).2 =
          [mkCall env "inpaint" "inpaint" (Kwargs.inpaintK img m)])
    ∧ (image_uploader env "img2img" DEFAULT_WIDTH DEFAULT_HEIGHT s = some img →
        env.button "img2img-btn" = true →
        genCalls (img2img_tab env s).2 =
          [mkCall env "img2img" "img2img" (Kwargs.img2imgK img)])
    ∧ (env.button "upscale-btn" = true →
        genCalls (upscale_tab env s).2 =
          [mkCall env "upscale" "upscale"
            (Kwargs.upscaleK (image_uploader env "upscale" 256 256 s))]) := by
  refine ⟨?_, ?_, ?_, ?_, ?_⟩
  · intro hb
    rw [genCalls_papb]
    simp [hb, mkCall]
  · intro hb
    rw [genCalls_txt2img_tab]
    simp [hb]
  · intro h hb
    rw [genCalls_inpainting_tab, h]
    simp [hb]
  · intro h hb
    rw [genCalls_img2img_tab, h]
    simp [hb]
  · intro hb
    rw [genCalls_upscale_tab]
    simp [hb]

/-- Witness for C3: at the concrete environment `envA` (all buttons clicked,
images uploaded except on the upscale tab, a one-pixel mask drawn), each tab
emits exactly the call built from its widget values. -/
theorem generate_receives_widget_values_witness :
    genCalls (txt2img_tab envA SessionState.empty).2 =
      [mkCall envA "txt2img" "txt2img"
        (Kwargs.txt2imgK (sliderNat envA "txt2img-width" 64 1024 64)
          (sliderNat envA "txt2img-height" 64 1024 64))]
    ∧ genCalls (inpainting_tab envA SessionState.empty).2 =
      [mkCall envA "inpaint" "inpaint"
        (Kwargs.inpaintK (imgA.resize 512 512) ⟨[[true], [false]]⟩)]
    ∧ genCalls (img2img_tab envA SessionState.empty).2 =
      [mkCall envA "img2img" "img2img" (Kwargs.img2imgK (imgA.resize 512 512))]
    ∧ genCalls (upscale_tab envA SessionState.empty).2 =
      [mkCall envA "upscale" "upscale"
        (Kwargs.upscaleK (image_uploader envA "upscale" 256 256 SessionState.empty))] := by
  have h := generate_receives_widget_values envA "txt2img" "txt2img"
    (Kwargs.txt2imgK 512 512) SessionState.empty (imgA.resize 512 512) ⟨[[true], [false]]⟩
  exact ⟨h.2.1 rfl, h.2.2.1 (by decide) rfl, h.2.2.2.1 (by decide) rfl, h.2.2.2.2 rfl⟩

/-- C4: when a Generate image button is clicked, a copy of the produced image
is stored under `OUTPUT_IMAGE_KEY` and the image is rendered; the sidebar
renders the stored output image when one is present and renders the text
"No output generated yet" if and only if none is stored; and in a full
script run the sidebar operates on the session state left by the four tabs,
so it shows the latest output image. -/
theorem output_stored_and_sidebar (env : Env) (pfx pn : String) (kw : Kwargs)
    (s : SessionState) (img : Image) :
    (env.button (pfx ++ "-btn") = true →
      get_image (prompt_and_generate_button env pfx pn kw s).1 OUTPUT_IMAGE_KEY =
        some ((env.generate (mkCall env pfx pn kw)).copy)
      ∧ Event.renderImage (env.generate (mkCall env pfx pn kw)) ∈
          (prompt_and_generate_button env pfx pn kw s).2)
    ∧ (get_image s OUTPUT_IMAGE_KEY = some img →
        Event.renderImage img ∈ (sidebar env s).2)
    ∧ (Event.renderMarkdown "No output generated yet" ∈ (sidebar env s).2 ↔
        get_image s OUTPUT_IMAGE_KEY = none)
    ∧ (SD2.main env s).2 =
        (txt2img_tab env s).2 ++
        ((inpainting_tab env (txt2img_tab env s).1).2 ++
         ((img2img_tab env (inpainting_tab env (txt2img_tab env s).1).1).2 ++
          ((upscale_tab env
              (img2img_tab env (inpainting_tab env (txt2img_tab env s).1).1).1).2 ++
           (sidebar env
              (upscale_tab env
                (img2img_tab env (inpainting_tab env (txt2img_tab env s).1).1).1).1).2))) := by
  refine ⟨?_, ?_, ?_, main_trace_decomposition env s⟩
  · intro hb
    unfold prompt_and_generate_button
    simp [hb, get_image, set_image]
  · intro h
    unfold sidebar
    rw [h]
    cases hb : env.button "Use this image for inpainting and img2img" <;> simp [hb]
  · unfold sidebar
    cases h : get_image s OUTPUT_IMAGE_KEY with
    | none => simp
    | some out =>
      cases hb : env.button "Use this image for inpainting and img2img" <;> simp [hb]

/-- Witness for C4: with a stored output image and the txt2img button
clicked, the generated image's copy is stored and the sidebar renders the
stored image. -/
theorem output_stored_and_sidebar_witness :
    (get_image (prompt_and_generate_button envA "txt2img" "txt2img"
        (Kwargs.txt2imgK 512 512) sOut).1 OUTPUT_IMAGE_KEY =
      some ((envA.generate (mkCall envA "txt2img" "txt2img" (Kwargs.txt2imgK 512 512))).copy))
    ∧ Event.renderImage outImg ∈ (sidebar envA sOut).2 := by
  have h := output_stored_and_sidebar envA "txt2img" "txt2img"
    (Kwargs.txt2imgK 512 512) sOut outImg
  exact ⟨(h.1 rfl).1, h.2.1 (by decide)⟩

/-- C5: the application exposes exactly the four tabs txt2img, inpainting,
img2img and upscale, and every `generate` call of each tab carries that
tab's pipeline name; all calls of a full run use one of the four pipeline
names. -/
theorem four_tabs_pipeline_names (env : Env) (s : SessionState) :
    mainTabLabels = ["Text to Image (txt2img)", "Inpainting",
      "Image to image (img2img)", "Upscale"]
    ∧ mainTabLabels.length = 4
    ∧ ((genCalls (txt2img_tab env s).2).all
        (fun c => c.pipeline_name == "txt2img")) = true
    ∧ ((genCalls (inpainting_tab env s).2).all
        (fun c => c.pipeline_name == "inpaint")) = true
    ∧ ((genCalls (img2img_tab env s).2).all
        (fun c => c.pipeline_name == "img2img")) = true
    ∧ ((genCalls (upscale_tab env s).2).all
        (fun c => c.pipeline_name == "upscale")) = true
    ∧ ((genCalls (SD2.main env s).2).all
        (fun c => ["txt2img", "inpaint", "img2img", "upscale"].contains
          c.pipeline_name)) = true := by
  have t1 : ∀ s' : SessionState, ((genCalls (txt2img_tab env s').2).all
      (fun c => c.pipeline_name == "txt2img")) = true := by
    intro s'
    rw [genCalls_txt2img_tab]
    cases hb : env.button "txt2img-btn" <;> simp [mkCall]
  have t2 : ∀ s' : SessionState, ((genCalls (inpainting_tab env s').2).all
      (fun c => c.pipeline_name == "inpaint")) = true := by
    intro s'
    rw [genCalls_inpainting_tab]
    cases h : (inpainting env s').1 <;>
      cases hb : env.button "inpaint-btn" <;> simp [hb, mkCall]
  have t3 : ∀ s' : SessionState, ((genCalls (img2img_tab env s').2).all
      (fun c => c.pipeline_name == "img2img")) = true := by
    intro s'
    rw [genCalls_img2img_tab]
    cases h : image_uploader env "img2img" DEFAULT_WIDTH DEFAULT_HEIGHT s' <;>
      cases hb : env.button "img2img-btn" <;> simp [hb, mkCall]
  have t4 : ∀ s' : SessionState, ((genCalls (upscale_tab env s').2).all
      (fun c => c.pipeline_name == "upscale")) = true := by
    intro s'
    rw [genCalls_upscale_tab]
    cases hb : env.button "upscale-btn" <;> simp [hb, mkCall]
  refine ⟨rfl, rfl, t1 s, t2 s, t3 s, t4 s, ?_⟩
  rw [main_trace_decomposition]
  simp only [genCalls_append, List.all_append, Bool.and_eq_true, genCalls_sidebar]
  have weaken : ∀ (l : List GenCall) (nm : String),
      (l.all (fun c => c.pipeline_name == nm)) = true →
      nm ∈ ["txt2img", "inpaint", "img2img", "upscale"] →
      (l.all (fun c => ["txt2img", "inpaint", "img2img", "upscale"].contains
        c.pipeline_name)) = true := by
    intro l nm hall hnm
    rw [List.all_eq_true] at hall ⊢
    intro c hc
    have := hall c hc
    rw [beq_iff_eq] at this
    simp [List.contains, this]
    simpa using hnm
  exact ⟨weaken _ _ (t1 s) (by decide),
    weaken _ _ (t2 (txt2img_tab env s).1) (by decide),
    weaken _ _ (t3 (inpainting_tab env (txt2img_tab env s).1).1) (by decide),
    weaken _ _ (t4 (img2img_tab env (inpainting_tab env (txt2img_tab env s).1).1).1)
      (by decide), by simp [genCalls]⟩

/-- C6 counterexample: the claim says a crop operation is applied to
uploaded images, but `crop` is not among the PIL operations `src/main.py`
applies to an uploaded image (the only one is `resize`, line 94). -/
theorem no_crop_operation : PILOp.crop ∉ uploadedImageOps := by decide

/-- C6 amended: the program's functional surface includes an image resize
utility applied to input images — every freshly uploaded image is resized —
but no crop operation: `resize` is the only PIL image operation applied to
uploaded images. -/
theorem resize_utility_no_crop (env : Env) (pfx : String) (w h : Nat)
    (s : SessionState) (img : Image)
    (hup : env.fileUpload (pfx ++ "-uploader") = some img) :
    image_uploader env pfx w h s = some (img.resize w h)
    ∧ PILOp.resize ∈ uploadedImageOps ∧ PILOp.crop ∉ uploadedImageOps := by
  refine ⟨?_, by decide, by decide⟩
  unfold image_uploader
  rw [hup]

/-- Witness for the amended C6 at a concrete upload. -/
theorem resize_utility_no_crop_witness :
    image_uploader envA "img2img" 512 512 SessionState.empty =
      some (imgA.resize 512 512)
    ∧ PILOp.resize ∈ uploadedImageOps ∧ PILOp.crop ∉ uploadedImageOps :=
  resize_utility_no_crop envA "img2img" 512 512 SessionState.empty imgA (by decide)

/-- C9: `image_uploader` resizes only freshly uploaded files: with an upload
it returns that image resized to exactly the given width and height; with no
upload it returns the session's loaded image unchanged (or `None`), ignoring
the width and height parameters. -/
theorem image_uploader_behavior (env : Env) (pfx : String) (w h w2 h2 : Nat)
    (s : SessionState) (img : Image) :
    (env.fileUpload (pfx ++ "-uploader") = some img →
      image_uploader env pfx w h s = some (img.resize w h)
      ∧ (img.resize w h).width = w ∧ (img.resize w h).height = h)
    ∧ (env.fileUpload (pfx ++ "-uploader") = none →
      image_uploader env pfx w h s = get_image s LOADED_IMAGE_KEY
      ∧ image_uploader env pfx w h s = image_uploader env pfx w2 h2 s) := by
  constructor
  · intro hup
    unfold image_uploader
    rw [hup]
    exact ⟨rfl, rfl, rfl⟩
  · intro hup
    unfold image_uploader
    rw [hup]
    exact ⟨rfl, rfl⟩

/-- Witness for C9: an upload is resized to the requested size; without an
upload the loaded image is returned unchanged for any requested size. -/
theorem image_uploader_behavior_witness :
    (image_uploader envA "img2img" 512 512 SessionState.empty =
      some (imgA.resize 512 512)
      ∧ (imgA.resize 512 512).width = 512 ∧ (imgA.resize 512 512).height = 512)
    ∧ (image_uploader envB "img2img" 512 512 sLoaded = get_image sLoaded LOADED_IMAGE_KEY
      ∧ image_uploader envB "img2img" 512 512 sLoaded =
        image_uploader envB "img2img" 64 64 sLoaded) := by
  have h1 := image_uploader_behavior envA "img2img" 512 512 64 64 SessionState.empty imgA
  have h2 := image_uploader_behavior envB "img2img" 512 512 64 64 sLoaded imgA
  exact ⟨h1.1 (by decide), h2.2 (by decide)⟩

theorem inpainting_fst (env : Env) (s : SessionState) :
    (inpainting env s).1 =
      match image_uploader env "inpainting" DEFAULT_WIDTH DEFAULT_HEIGHT s with
      | none => none
      | some image =>
        match env.canvasData "inpainting" with
        | none => none
        | some data =>
          if 0 < maskSum (alphaMask data) then some (image, ⟨alphaMask data⟩)
          else none := by
  unfold inpainting
  cases hu : image_uploader env "inpainting" DEFAULT_WIDTH DEFAULT_HEIGHT s with
  | none => rfl
  | some image =>
    cases hc : env.canvasData "inpainting" with
    | none => rfl
    | some d => by_cases hm : 0 < maskSum (alphaMask d) <;> simp [hm]

/-- C10: the inpainting and img2img tabs never invoke the generation flow
without an input image; inpainting also requires a drawn mask with at least
one positive-alpha pixel, and returns `(None, None)` otherwise; the upscale
tab invokes the generation flow unconditionally, with `image_input` possibly
`None`. -/
theorem input_image_preconditions (env : Env) (s : SessionState)
    (img : Image) (m : Mask) (data : List (List RGBA)) :
    (image_uploader env "inpainting" DEFAULT_WIDTH DEFAULT_HEIGHT s = none →
      inpainting env s = (none, []))
    ∧ ((inpainting env s).1 = some (img, m) → 0 < maskSum m.pixels)
    ∧ (env.canvasData "inpainting" = none → (inpainting env s).1 = none)
    ∧ (env.canvasData "inpainting" = some data → maskSum (alphaMask data) = 0 →
        (inpainting env s).1 = none)
    ∧ ((inpainting env s).1 = none → genCalls (inpainting_tab env s).2 = [])
    ∧ (image_uploader env "img2img" DEFAULT_WIDTH DEFAULT_HEIGHT s = none →
        img2img_tab env s = (s, []))
    ∧ (env.button "upscale-btn" = true →
        genCalls (upscale_tab env s).2 =
          [mkCall env "upscale" "upscale"
            (Kwargs.upscaleK (image_uploader env "upscale" 256 256 s))]) := by
  obtain ⟨mp⟩ := m
  refine ⟨?_, ?_, ?_, ?_, ?_, ?_, ?_⟩
  · intro h
    unfold inpainting
    rw [h]
  · intro h
    rw [inpainting_fst] at h
    cases hu : image_uploader env "inpainting" DEFAULT_WIDTH DEFAULT_HEIGHT s with
    | none => rw [hu] at h; simp at h
    | some image =>
      rw [hu] at h
      cases hc : env.canvasData "inpainting" with
      | none => rw [hc] at h; simp at h
      | some d =>
        rw [hc] at h
        by_cases hm : 0 < maskSum (alphaMask d)
        · simp only [hm, if_true, Option.some.injEq, Prod.mk.injEq,
            Mask.mk.injEq] at h
          rw [← h.2]
          exact hm
        · simp [hm] at h
  · intro hc
    rw [inpainting_fst]
    cases hu : image_uploader env "inpainting" DEFAULT_WIDTH DEFAULT_HEIGHT s with
    | none => rfl
    | some image => rw [hc]
  · intro hc hm
    rw [inpainting_fst]
    cases hu : image_uploader env "inpainting" DEFAULT_WIDTH DEFAULT_HEIGHT s with
    | none => rfl
    | some image =>
      rw [hc]
      simp [hm]
  · intro h
    rw [genCalls_inpainting_tab, h]
  · intro h
    unfold img2img_tab
    rw [h]
  · intro hb
    rw [genCalls_upscale_tab]
    simp [hb]

/-- Witness for C10: at `envB` (no uploads, zero-alpha canvas) inpainting
returns `(None, None)`, the inpainting and img2img tabs emit no `generate`
call, and the upscale tab emits a call with `image_input = None`; at `envA`
the successful inpainting mask has a positive-alpha pixel; at `envC`
(upload but no canvas data) inpainting yields no image/mask pair. -/
theorem input_image_preconditions_witness :
    inpainting envB SessionState.empty = (none, [])
    ∧ 0 < maskSum (Mask.mk [[true], [false]]).pixels
    ∧ (inpainting envC SessionState.empty).1 = none
    ∧ genCalls (inpainting_tab envB SessionState.empty).2 = []
    ∧ img2img_tab envB SessionState.empty = (SessionState.empty, [])
    ∧ genCalls (upscale_tab envB SessionState.empty).2 =
        [mkCall envB "upscale" "upscale"
          (Kwargs.upscaleK (image_uploader envB "upscale" 256 256 SessionState.empty))] := by
  have hB := input_image_preconditions envB SessionState.empty imgA
    ⟨[[true], [false]]⟩ [[(10, 10, 10, 0)]]
  have hA := input_image_preconditions envA SessionState.empty (imgA.resize 512 512)
    ⟨[[true], [false]]⟩ [[(10, 10, 10, 0)]]
  have hC := input_image_preconditions envC SessionState.empty imgA
    ⟨[[true], [false]]⟩ [[(10, 10, 10, 0)]]
  exact ⟨hB.1 (by decide), hA.2.1 (by decide), hC.2.2.1 (by decide),
    hB.2.2.2.2.1 (by decide), hB.2.2.2.2.2.1 (by decide), hB.2.2.2.2.2.2 rfl⟩
